import Mathlib

/-!
# Verification of the Bokun OAuth install/callback app

Shallow embedding of the two Express route handlers and the `verifyHmac`
helper found in `app.js` and its near-duplicate variant. The variant differs
only in presentation details: it reads the marketplace host from the
`BOKUN_HOST` environment variable (default `"bokun.io"`, which is the literal
the first file hard-codes), names the correlation query field `state` instead
of `nonce` and the code field `code` instead of `authorization_code`, and
delivers the authorization URL via an interstitial page instead of a 302
redirect. The control flow, the store discipline and every branch condition
are identical, so one embedding (keyed with the first file field names and
the configurable host) covers both.

Modelling choices:
* Query strings and the in-memory `sessions` object are association lists;
  `jsGet` models JavaScript property access (`undefined` becomes `none`).
* `crypto.createHmac('sha256', secret).update(message).digest('hex')` is
  modelled by a full executable HMAC-SHA256 (FIPS 180-4 / RFC 2104) over
  UTF-8 byte lists, validated against the standard test vectors below.
* The two `await axios.post` calls in the callback are the only effects; they
  are modelled by an oracle (`CallbackEffects`): `exchange = none` means the
  token-exchange promise rejected (network error or non-2xx status, which
  axios turns into a thrown error), `persistOk = false` means the webhook
  post rejected. The record POSTed to the webhook is returned as part of the
  outcome so that "the persistence collaborator was (not) invoked" is
  expressible.
* `crypto.randomBytes(16)` is modelled by passing the 16 raw bytes as an
  input; `.toString('hex')` is `bytesToHex`.
-/

set_option maxRecDepth 1000000
set_option maxHeartbeats 2000000

namespace OAuthApp

/-! ## SHA-256 and HMAC-SHA256 (model of node `crypto`) -/

/-- Truncate to a 32-bit word. -/
def w32 (n : Nat) : Nat := n % 4294967296

/-- 32-bit rotate right. -/
def rotr (n x : Nat) : Nat := w32 ((x >>> n) ||| (x <<< (32 - n)))

def bsig0 (x : Nat) : Nat := (rotr 2 x) ^^^ (rotr 13 x) ^^^ (rotr 22 x)

def bsig1 (x : Nat) : Nat := (rotr 6 x) ^^^ (rotr 11 x) ^^^ (rotr 25 x)

def ssig0 (x : Nat) : Nat := (rotr 7 x) ^^^ (rotr 18 x) ^^^ (x >>> 3)

def ssig1 (x : Nat) : Nat := (rotr 17 x) ^^^ (rotr 19 x) ^^^ (x >>> 10)

/-- SHA-256 choice function; `2^32 - 1 - x` is the 32-bit complement of `x`. -/
def chF (x y z : Nat) : Nat := (x &&& y) ^^^ ((4294967295 - w32 x) &&& z)

def majF (x y z : Nat) : Nat := (x &&& y) ^^^ (x &&& z) ^^^ (y &&& z)

/-- The 64 SHA-256 round constants of FIPS 180-4, rendered in decimal. -/
def K : List Nat :=
  [1116352408, 1899447441, 3049323471, 3921009573,
   961987163, 1508970993, 2453635748, 2870763221,
   3624381080, 310598401, 607225278, 1426881987,
   1925078388, 2162078206, 2614888103, 3248222580,
   3835390401, 4022224774, 264347078, 604807628,
   770255983, 1249150122, 1555081692, 1996064986,
   2554220882, 2821834349, 2952996808, 3210313671,
   3336571891, 3584528711, 113926993, 338241895,
   666307205, 773529912, 1294757372, 1396182291,
   1695183700, 1986661051, 2177026350, 2456956037,
   2730485921, 2820302411, 3259730800, 3345764771,
   3516065817, 3600352804, 4094571909, 275423344,
   430227734, 506948616, 659060556, 883997877,
   958139571, 1322822218, 1537002063, 1747873779,
   1955562222, 2024104815, 2227730452, 2361852424,
   2428436474, 2756734187, 3204031479, 3329325298]

/-- The initial SHA-256 hash state of FIPS 180-4, rendered in decimal. -/
def H0 : List Nat :=
  [1779033703, 3144134277, 1013904242, 2773480762,
   1359893119, 2600822924, 528734635, 1541459225]

/-- FIPS 180-4 padding: append `0x80`, zero bytes, then the 64-bit big-endian
bit length, to a multiple of 64 bytes. -/
def padMsg (msg : List Nat) : List Nat :=
  let len := msg.length
  let bitLen := 8 * len
  let k := (119 - (len % 64)) % 64
  let lenBytes := (List.range 8).map (fun i => (bitLen >>> (8 * (7 - i))) % 256)
  msg ++ [0x80] ++ List.replicate k 0 ++ lenBytes

/-- Split into 64-byte blocks (fuel-based structural recursion so that the
kernel can reduce it; each step strips at least one element, so the list
length is enough fuel). -/
def toBlocksAux : Nat → List Nat → List (List Nat)
  | 0, _ => []
  | fuel + 1, l => if l.isEmpty then [] else l.take 64 :: toBlocksAux fuel (l.drop 64)

def toBlocks (l : List Nat) : List (List Nat) := toBlocksAux l.length l

/-- Big-endian bytes to 32-bit words, four bytes at a time. -/
def toWords : List Nat → List Nat
  | a :: b :: c :: d :: rest => (a * 16777216 + b * 65536 + c * 256 + d) :: toWords rest
  | _ => []

/-- Extend the 16 block words by `n` further message-schedule words. -/
def schedule (ws : List Nat) : Nat → List Nat
  | 0 => ws
  | n + 1 =>
    let ws' := schedule ws n
    let t := ws'.length
    let wt := w32 (ssig1 (ws'.getD (t - 2) 0) + ws'.getD (t - 7) 0 +
                   ssig0 (ws'.getD (t - 15) 0) + ws'.getD (t - 16) 0)
    ws' ++ [wt]

/-- The eight 32-bit working variables of the compression loop. -/
structure Sha2St where
  a : Nat
  b : Nat
  c : Nat
  d : Nat
  e : Nat
  f : Nat
  g : Nat
  h : Nat

def sha2Round (s : Sha2St) (kt wt : Nat) : Sha2St :=
  let t1 := w32 (s.h + bsig1 s.e + chF s.e s.f s.g + kt + wt)
  let t2 := w32 (bsig0 s.a + majF s.a s.b s.c)
  ⟨w32 (t1 + t2), s.a, s.b, s.c, w32 (s.d + t1), s.e, s.f, s.g⟩

def compress (hs : List Nat) (block : List Nat) : List Nat :=
  let ws := schedule (toWords block) 48
  let s0 : Sha2St := ⟨hs.getD 0 0, hs.getD 1 0, hs.getD 2 0, hs.getD 3 0,
                      hs.getD 4 0, hs.getD 5 0, hs.getD 6 0, hs.getD 7 0⟩
  let sF := (List.range 64).foldl (fun s t => sha2Round s (K.getD t 0) (ws.getD t 0)) s0
  [w32 (s0.a + sF.a), w32 (s0.b + sF.b), w32 (s0.c + sF.c), w32 (s0.d + sF.d),
   w32 (s0.e + sF.e), w32 (s0.f + sF.f), w32 (s0.g + sF.g), w32 (s0.h + sF.h)]

def wordsToBytes : List Nat → List Nat
  | [] => []
  | w :: rest => [(w >>> 24) % 256, (w >>> 16) % 256, (w >>> 8) % 256, w % 256] ++ wordsToBytes rest

/-- SHA-256 of a byte list. -/
def sha256 (msg : List Nat) : List Nat :=
  wordsToBytes ((toBlocks (padMsg msg)).foldl compress H0)

/-- Lowercase hex digit, as produced by `.digest('hex')`. -/
def hexDigit (n : Nat) : Char := Char.ofNat (if n < 10 then 48 + n else 87 + n)

/-- Byte list to lowercase hex, the encoding of `Buffer.toString('hex')` and
`Hmac.digest('hex')`. -/
def bytesToHex (bs : List Nat) : String :=
  String.mk (bs.flatMap (fun b => [hexDigit (b / 16), hexDigit (b % 16)]))

/-- UTF-8 encoding of one code point (node encodes strings as UTF-8 before
hashing). -/
def utf8Char (c : Char) : List Nat :=
  let n := c.toNat
  if n < 0x80 then [n]
  else if n < 0x800 then [0xc0 ||| (n >>> 6), 0x80 ||| (n &&& 0x3f)]
  else if n < 0x10000 then [0xe0 ||| (n >>> 12), 0x80 ||| ((n >>> 6) &&& 0x3f), 0x80 ||| (n &&& 0x3f)]
  else [0xf0 ||| (n >>> 18), 0x80 ||| ((n >>> 12) &&& 0x3f),
        0x80 ||| ((n >>> 6) &&& 0x3f), 0x80 ||| (n &&& 0x3f)]

/-- UTF-8 bytes of a string. -/
def strBytes (s : String) : List Nat := s.data.flatMap utf8Char

/-- HMAC-SHA256 (RFC 2104): keys longer than the 64-byte block are digested
first, shorter keys are zero-padded to the block size. -/
def hmacSha256 (key msg : List Nat) : List Nat :=
  let key1 := if key.length > 64 then sha256 key else key
  let key0 := key1 ++ List.replicate (64 - key1.length) 0
  let ipad := key0.map (fun b => b ^^^ 0x36)
  let opad := key0.map (fun b => b ^^^ 0x5c)
  sha256 (opad ++ sha256 (ipad ++ msg))

/-- `crypto.createHmac('sha256', secret).update(message).digest('hex')`. -/
def hmacHex (secret message : String) : String :=
  bytesToHex (hmacSha256 (strBytes secret) (strBytes message))

/-! ## Query strings, the session store, and `verifyHmac` -/

/-- An inbound query string: ordered key/value pairs, values already decoded
to strings (the only shape the handlers consult). -/
abbrev Query := List (String × String)

/-- JavaScript property access `obj[k]`: `none` models `undefined`. -/
def jsGet {α : Type} (l : List (String × α)) (k : String) : Option α :=
  (l.find? (fun p => p.1 == k)).map (fun p => p.2)

/-- JavaScript truthiness of a possibly-undefined string: `undefined` and the
empty string are falsy. -/
def truthy : Option String → Bool
  | none => false
  | some s => !s.isEmpty

/-- Template-literal interpolation of a possibly-undefined value:
`` `${x}` `` renders `undefined` as the string "undefined". -/
def jsStr : Option String → String
  | none => "undefined"
  | some s => s

/-- Rest-destructuring that removes the hmac entry from the query
(the JS binds the provided value and collects the rest): drop every
hmac pair. -/
def removeHmac (q : Query) : Query := q.filter (fun p => p.1 != "hmac")

/-- Lexicographic code-unit comparison, the default comparator of
`Array.prototype.sort()` (all keys here are ASCII, where code-unit and
code-point order agree). -/
def charListLe : List Char → List Char → Bool
  | [], _ => true
  | _ :: _, [] => false
  | x :: xs, y :: ys =>
    if x.toNat < y.toNat then true
    else if y.toNat < x.toNat then false
    else charListLe xs ys

def strLe (a b : String) : Bool := charListLe a.data b.data

/-- Insertion into a sorted list; with unique keys any comparison sort
produces the same key order as `Array.prototype.sort()`. -/
def insertSorted (x : String) : List String → List String
  | [] => [x]
  | y :: ys => if strLe x y then x :: y :: ys else y :: insertSorted x ys

def sortKeys : List String → List String
  | [] => []
  | x :: xs => insertSorted x (sortKeys xs)

/-- The canonical signed message: sorted keys joined as
`key=value` pairs with `&`, values verbatim
(`sortedKeys.map(key => key+"="+params[key]).join('&')`). -/
def canonMsg (params : Query) : String :=
  String.intercalate "&" ((sortKeys (params.map (fun p => p.1))).map
    (fun k => k ++ "=" ++ ((jsGet params k).getD "")))

/-- `verifyHmac(query, secret)` from the source: remove the `hmac` parameter,
sort the remaining keys, join `key=value` with `&`, HMAC-SHA256 the message
with the secret, hex-encode, and compare with `===` to the provided value
(`undefined` compares unequal to any string). A pure function: the JS
original mutates nothing (its `console.log` calls are ignored here). -/
def verifyHmac (query : Query) (secret : String) : Bool :=
  let message := canonMsg (removeHmac query)
  let computedHmac := hmacHex secret message
  match jsGet query "hmac" with
  | none => false
  | some providedHmac => computedHmac == providedHmac

/-- The matching signing operation (the spec `sign(P,S)`): the hex HMAC the
verifier would compute for this parameter set, i.e. the unique signature value
it accepts. -/
def signQ (params : Query) (secret : String) : String :=
  hmacHex secret (canonMsg (removeHmac params))

/-- Value stored in the session map: user, domain and timestamp, each
possibly undefined. -/
structure InstallContext where
  user : Option String
  domain : Option String
  timestamp : Option String
deriving DecidableEq, Repr

/-- The in-memory `sessions` object: an insertion-ordered association list. -/
abbrev Sessions := List (String × InstallContext)

def getSession (s : Sessions) (k : String) : Option InstallContext := jsGet s k

/-- `sessions[nonce] = ctx`: overwrite in place if the key exists, else
append. -/
def putSession (s : Sessions) (k : String) (v : InstallContext) : Sessions :=
  match s with
  | [] => [(k, v)]
  | (k', v') :: rest => if k' == k then (k, v) :: rest else (k', v') :: putSession rest k v

/-- `delete sessions[nonce]`. -/
def deleteSession (s : Sessions) (k : String) : Sessions :=
  s.filter (fun p => p.1 != k)

/-! ## Configuration and the install handler -/

/-- The environment-style configuration read at startup. -/
structure Config where
  API_KEY : String
  CLIENT_SECRET : String
  SCOPES : String
  REDIRECT_URI : String
  BOKUN_HOST : String
deriving DecidableEq, Repr

/-- Uppercase hex digit, used by percent-encoding. -/
def hexDigitUpper (n : Nat) : Char := Char.ofNat (if n < 10 then 48 + n else 55 + n)

/-- Characters `encodeURIComponent` leaves unescaped. -/
def uriUnreserved (c : Char) : Bool :=
  c.isAlphanum || ['-', '_', '.', '!', '~', '*', '\'', '(', ')'].contains c

/-- ECMAScript `encodeURIComponent`: unreserved characters pass through,
everything else is percent-encoded as uppercase-hex UTF-8 bytes. -/
def encodeURIComponent (s : String) : String :=
  String.mk (s.data.flatMap (fun c =>
    if uriUnreserved c then [c]
    else (utf8Char c).flatMap (fun b => ['%', hexDigitUpper (b / 16), hexDigitUpper (b % 16)])))

/-- HTTP responses the handlers produce. `redirect` is `res.redirect(url)`
(the variant file delivers the same URL via an interstitial page instead —
presentational only); `ok` is a plain 200 `res.send`; `status` is
`res.status(code).send(body)`. -/
inductive Response where
  | redirect (url : String)
  | ok (body : String)
  | status (code : Nat) (body : String)
deriving DecidableEq, Repr

structure InstallOutcome where
  response : Response
  sessionsAfter : Sessions
deriving DecidableEq, Repr

/-- `app.get('/install')`: verify the HMAC (400 on failure), then generate a
nonce from 16 random bytes, store the user, domain and timestamp under
it, and direct the client to the marketplace authorize URL. `randBytes` is
the output of `crypto.randomBytes(16)`. -/
def installHandler (cfg : Config) (randBytes : List Nat) (q : Query) (sessions : Sessions) :
    InstallOutcome :=
  if !(verifyHmac q cfg.CLIENT_SECRET) then
    ⟨Response.status 400 "Invalid HMAC on install request", sessions⟩
  else
    let domain := jsGet q "domain"
    let user := jsGet q "user"
    let timestamp := jsGet q "timestamp"
    let nonce := bytesToHex randBytes
    let authUrl := "https://" ++ jsStr domain ++ "." ++ cfg.BOKUN_HOST ++
      "/appstore/oauth/authorize?client_id=" ++ cfg.API_KEY ++
      "&scope=" ++ encodeURIComponent cfg.SCOPES ++
      "&redirect_uri=" ++ encodeURIComponent cfg.REDIRECT_URI ++
      "&state=" ++ nonce
    ⟨Response.redirect authUrl, putSession sessions nonce ⟨user, domain, timestamp⟩⟩

/-! ## The callback handler -/

/-- `tokenResponse.data` when the exchange promise resolves; fields may be
absent (a malformed body resolves with `undefined` fields, it does not
throw). -/
structure TokenData where
  access_token : Option String
  scope : Option String
  vendor_id : Option String
deriving DecidableEq, Repr

/-- The record POSTed to the webhook (the persistence collaborator). -/
structure PersistedRecord where
  user : Option String
  domain : Option String
  nonce : String
  access_token : Option String
  scope : Option String
  vendor_id : Option String
deriving DecidableEq, Repr

/-- Oracle for the two awaited effects: `exchange = none` means the
token-exchange `axios.post` rejected (network error or non-2xx status);
`persistOk = false` means the webhook `axios.post` rejected. -/
structure CallbackEffects where
  exchange : Option TokenData
  persistOk : Bool
deriving DecidableEq, Repr

structure CallbackOutcome where
  response : Response
  sessionsAfter : Sessions
  persisted : Option PersistedRecord
deriving DecidableEq, Repr

/-- `app.get('/callback')`: reject 400 if the nonce is falsy or unknown
(plain lookup — nothing is deleted here); reject 400 on bad HMAC; exchange
the code (rejection is caught → 500); re-read the session, POST the merged
record to the webhook, delete the session entry only after that POST
succeeds, and answer 200. A webhook rejection lands in the same `catch` as
an exchange rejection, producing the identical 500 response, with the
session entry still in place.

`persisted` reports the record whose POST to the webhook was issued (`none`
when the handler never reached that call). The unreachable `none` branch of
the second session read mirrors the `TypeError` that the surrounding
`try/catch` would turn into the same 500. -/
def callbackHandler (cfg : Config) (eff : CallbackEffects) (q : Query) (sessions : Sessions) :
    CallbackOutcome :=
  let nonceOpt := jsGet q "nonce"
  if !(truthy nonceOpt) || !(getSession sessions (nonceOpt.getD "")).isSome then
    ⟨Response.status 400 "Invalid or missing nonce", sessions, none⟩
  else if !(verifyHmac q cfg.CLIENT_SECRET) then
    ⟨Response.status 400 "Invalid HMAC on callback request", sessions, none⟩
  else
    let nonce := nonceOpt.getD ""
    match eff.exchange with
    | none =>
      ⟨Response.status 500 "Error exchanging authorization code for access token", sessions, none⟩
    | some tokenData =>
      match getSession sessions nonce with
      | none =>
        ⟨Response.status 500 "Error exchanging authorization code for access token", sessions, none⟩
      | some sessionData =>
        let storeData : PersistedRecord :=
          ⟨sessionData.user, sessionData.domain, nonce,
           tokenData.access_token, tokenData.scope, tokenData.vendor_id⟩
        if eff.persistOk then
          ⟨Response.ok "App successfully installed and data stored!",
           deleteSession sessions nonce, some storeData⟩
        else
          ⟨Response.status 500 "Error exchanging authorization code for access token",
           sessions, some storeData⟩


/-! ## Concrete instances used by witnesses and counterexamples

The hex constants below are the HMAC-SHA256 digests (computed with the
definitions above) that make the corresponding queries verify under the
deployment secret "shh". -/

/-- A one-character string holding the NUL character. As an HMAC key,
appending it to a sub-block-size secret does not change the digest (RFC 2104
zero-pads short keys), which claim C4 exercises. -/
def nulStr : String := String.mk [Char.ofNat 0]

/-- Lowercase hex digits, the alphabet of correlation tokens. -/
def isHexChar (c : Char) : Bool := "0123456789abcdef".data.contains c

/-- A concrete deployment configuration. -/
def cfg0 : Config :=
  ⟨"key123", "shh", "PRODUCTS_MANAGE,BOOKINGS_CREATE", "https://app.example.com/callback", "bokun.io"⟩

/-- The same deployment with a different client secret. -/
def cfg1 : Config :=
  ⟨"key123", "othersecret", "PRODUCTS_MANAGE,BOOKINGS_CREATE", "https://app.example.com/callback", "bokun.io"⟩

/-- A pending install context as stored by the install handler. -/
def ctx0 : InstallContext := ⟨some "u1", some "acme", some "111"⟩

/-- A store holding one pending install under correlation token "t0". -/
def s0 : Sessions := [("t0", ctx0)]

/-- A well-formed token-exchange response body. -/
def td0 : TokenData := ⟨some "tok123", some "PRODUCTS_MANAGE", some "v1"⟩

/-- A malformed token-exchange response body: the promise resolved (2xx) but
carries none of the expected fields. -/
def tdEmpty : TokenData := ⟨none, none, none⟩

/-- Effects oracle: the exchange promise rejects. -/
def effNone : CallbackEffects := ⟨none, true⟩

/-- A validly signed install query for secret "shh"
(message "domain=acme&timestamp=111&user=u1"). -/
def qInstallOK : Query :=
  [("domain", "acme"),
   ("hmac", "2b4511cd644c67dafc5b14e2a6fd2caa28ac621ecae75b6fa1e9b2e2b0b36859"),
   ("timestamp", "111"), ("user", "u1")]

/-- A validly signed callback query for secret "shh" presenting token "t0"
(message "authorization_code=c1&domain=acme&nonce=t0&timestamp=111"). -/
def qCbOK : Query :=
  [("authorization_code", "c1"), ("domain", "acme"),
   ("hmac", "d0c19e8a210c4335c0d8a6352f114e8224e374a8132936b5206bb262e084cc72"),
   ("nonce", "t0"), ("timestamp", "111")]

/-- The same callback query with a tampered signature. -/
def qCbBad : Query :=
  [("authorization_code", "c1"), ("domain", "acme"), ("hmac", "deadbeef"),
   ("nonce", "t0"), ("timestamp", "111")]

/-- A validly signed install query carrying no parameter besides the
signature itself (the signed message is empty). -/
def qEmptyOK : Query :=
  [("hmac", "10ef549424dba19e23c992cca7d30d5acd838a014ab9c3f95b8ba72d34ea4df5")]

/-! ## Validation of the crypto model against standard test vectors -/

/-- FIPS 180-4 test vector: SHA-256 of "abc". -/
theorem sha256_abc :
    bytesToHex (sha256 (strBytes "abc")) =
      "ba7816bf8f01cfea414140de5dae2223b00361a396177a9cb410ff61f20015ad" := by decide

/-- RFC 4231 test case 2: HMAC-SHA256 with key "Jefe". -/
theorem hmac_rfc4231_tc2 :
    hmacHex "Jefe" "what do ya want for nothing?" =
      "5bdcc146bf60754e6a042426089575c75a003f089d2739839dec58b964ec3843" := by decide

/-! ## Generic lemmas about the verifier -/

theorem jsGet_append_single {α : Type} (P : List (String × α)) (k : String) (v : α)
    (h : P.all (fun p => p.1 != k) = true) :
    jsGet (P ++ [(k, v)]) k = some v := by
  induction P with
  | nil => simp [jsGet, List.find?]
  | cons a rest ih =>
    simp only [List.all_cons, Bool.and_eq_true] at h
    have hne : (a.1 == k) = false := by
      cases hak : a.1 == k with
      | false => rfl
      | true => simp [bne, hak] at h
    simp only [List.cons_append, jsGet, List.find?, hne]
    exact ih h.2

theorem removeHmac_append_hmac (P : Query) (v : String) :
    removeHmac (P ++ [("hmac", v)]) = removeHmac P := by
  simp [removeHmac, List.filter_append]

theorem removeHmac_eq_self (P : Query) (h : P.all (fun p => p.1 != "hmac") = true) :
    removeHmac P = P :=
  List.filter_eq_self.mpr (List.all_eq_true.mp h)

/-- A parameter set carrying exactly the signature the verifier computes for
it is accepted. -/
theorem verify_of_sign_self (P : Query) (S : String)
    (h : P.all (fun p => p.1 != "hmac") = true) :
    verifyHmac (P ++ [("hmac", signQ P S)]) S = true := by
  simp only [verifyHmac, signQ, removeHmac_append_hmac, jsGet_append_single P _ _ h]
  exact beq_self_eq_true _

/-- If the digest under the checking secret differs from the provided
signature, verification fails. -/
theorem verify_of_sign_ne (P : Query) (S Sx : String)
    (h : P.all (fun p => p.1 != "hmac") = true)
    (hne : hmacHex Sx (canonMsg (removeHmac P)) ≠ hmacHex S (canonMsg (removeHmac P))) :
    verifyHmac (P ++ [("hmac", signQ P S)]) Sx = false := by
  simp only [verifyHmac, signQ, removeHmac_append_hmac, jsGet_append_single P _ _ h]
  exact beq_eq_false_iff_ne.mpr hne

theorem strBytes_nul : strBytes nulStr = [0] := by decide

theorem strBytes_append_nul (S : String) : strBytes (S ++ nulStr) = strBytes S ++ [0] := by
  show (S ++ nulStr).data.flatMap utf8Char = strBytes S ++ [0]
  rw [String.data_append, List.flatMap_append]
  exact congrArg (strBytes S ++ ·) strBytes_nul

/-- RFC 2104 key normalization: a key shorter than the block size is
zero-padded, so appending a zero byte to it leaves the digest unchanged. -/
theorem hmac_key_nul (bs : List Nat) (h : bs.length ≤ 63) (m : List Nat) :
    hmacSha256 (bs ++ [0]) m = hmacSha256 bs m := by
  simp only [hmacSha256, List.length_append, List.length_cons, List.length_nil]
  rw [if_neg (by omega), if_neg (by omega)]
  simp only [List.length_append, List.length_cons, List.length_nil]
  have key0eq : bs ++ [0] ++ List.replicate (64 - (bs.length + 1)) 0
      = bs ++ List.replicate (64 - bs.length) 0 := by
    rw [List.append_assoc]
    congr 1
    have h64 : (64 - bs.length) = (64 - (bs.length + 1)) + 1 := by omega
    rw [h64, List.replicate_succ]
    rfl
  rw [key0eq]

theorem hmacHex_nul (S : String) (h : (strBytes S).length ≤ 63) (m : String) :
    hmacHex (S ++ nulStr) m = hmacHex S m := by
  simp only [hmacHex, strBytes_append_nul, hmac_key_nul _ h]

/-- A signature produced with secret S also verifies under the distinct
secret S ++ NUL, for S below the HMAC block size. -/
theorem verify_of_sign_nul (P : Query) (S : String)
    (h : P.all (fun p => p.1 != "hmac") = true)
    (hlen : (strBytes S).length ≤ 63) :
    verifyHmac (P ++ [("hmac", signQ P S)]) (S ++ nulStr) = true := by
  simp only [verifyHmac, signQ, removeHmac_append_hmac, jsGet_append_single P _ _ h,
    hmacHex_nul S hlen]
  exact beq_self_eq_true _

theorem nulStr_length : nulStr.length = 1 := rfl

theorem nul_append_ne (S : String) : S ++ nulStr ≠ S := by
  intro h
  have h2 := congrArg String.length h
  rw [String.length_append, nulStr_length] at h2
  omega

/-! ## Generic lemmas about the handlers -/

theorem hexDigit_isHexChar : ∀ n, n < 16 → isHexChar (hexDigit n) = true := by decide

theorem hexPairs_length (bs : List Nat) :
    (bs.flatMap (fun b => [hexDigit (b / 16), hexDigit (b % 16)])).length = 2 * bs.length := by
  induction bs with
  | nil => rfl
  | cons b rest ih => simp [List.flatMap_cons, ih]; omega

theorem bytesToHex_length (bs : List Nat) : (bytesToHex bs).length = 2 * bs.length := by
  show (bs.flatMap (fun b => [hexDigit (b / 16), hexDigit (b % 16)])).length = 2 * bs.length
  exact hexPairs_length bs

theorem bytesToHex_chars (bs : List Nat) (h : ∀ b ∈ bs, b < 256) :
    ∀ c ∈ (bytesToHex bs).data, isHexChar c = true := by
  intro c hc
  have hc2 : c ∈ bs.flatMap (fun b => [hexDigit (b / 16), hexDigit (b % 16)]) := hc
  rcases List.mem_flatMap.mp hc2 with ⟨b, hb, hcb⟩
  have hb256 := h b hb
  simp only [List.mem_cons, List.mem_singleton, List.not_mem_nil, or_false] at hcb
  rcases hcb with rfl | rfl
  · exact hexDigit_isHexChar _ (Nat.div_lt_of_lt_mul (by omega))
  · exact hexDigit_isHexChar _ (Nat.mod_lt _ (by omega))

/-- The install handler on a valid signature: redirect plus store write. -/
theorem install_valid (cfg : Config) (bs : List Nat) (q : Query) (s : Sessions)
    (h : verifyHmac q cfg.CLIENT_SECRET = true) :
    installHandler cfg bs q s =
      ⟨Response.redirect ("https://" ++ jsStr (jsGet q "domain") ++ "." ++ cfg.BOKUN_HOST ++
          "/appstore/oauth/authorize?client_id=" ++ cfg.API_KEY ++
          "&scope=" ++ encodeURIComponent cfg.SCOPES ++
          "&redirect_uri=" ++ encodeURIComponent cfg.REDIRECT_URI ++
          "&state=" ++ bytesToHex bs),
       putSession s (bytesToHex bs) ⟨jsGet q "user", jsGet q "domain", jsGet q "timestamp"⟩⟩ := by
  simp [installHandler, h]

/-- The install handler answers the invalid-signature 400 exactly when
verification fails. -/
theorem install_400_iff (cfg : Config) (bs : List Nat) (q : Query) (s : Sessions) :
    ((installHandler cfg bs q s).response = Response.status 400 "Invalid HMAC on install request")
      ↔ verifyHmac q cfg.CLIENT_SECRET = false := by
  cases h : verifyHmac q cfg.CLIENT_SECRET <;> simp [installHandler, h]

/-- The callback handler unknown/missing-token rejection. -/
theorem callback_unknown_token (cfg : Config) (eff : CallbackEffects) (q : Query) (s : Sessions)
    (h : (truthy (jsGet q "nonce")
          && (getSession s ((jsGet q "nonce").getD "")).isSome) = false) :
    callbackHandler cfg eff q s = ⟨Response.status 400 "Invalid or missing nonce", s, none⟩ := by
  have h2 : (!(truthy (jsGet q "nonce"))
      || !((getSession s ((jsGet q "nonce").getD "")).isSome)) = true := by
    rw [← Bool.not_and, h]
    rfl
  simp only [callbackHandler]
  rw [if_pos h2]

/-- The callback handler invalid-signature rejection: the store is left
untouched. -/
theorem callback_bad_sig (cfg : Config) (eff : CallbackEffects) (q : Query) (s : Sessions)
    (h1 : truthy (jsGet q "nonce") = true)
    (h2 : (getSession s ((jsGet q "nonce").getD "")).isSome = true)
    (h3 : verifyHmac q cfg.CLIENT_SECRET = false) :
    callbackHandler cfg eff q s = ⟨Response.status 400 "Invalid HMAC on callback request", s, none⟩ := by
  simp [callbackHandler, h1, h2, h3]

/-- The callback handler when the exchange promise rejects: 500, no webhook
call, store untouched. -/
theorem callback_exchange_fail (cfg : Config) (eff : CallbackEffects) (q : Query) (s : Sessions)
    (h1 : truthy (jsGet q "nonce") = true)
    (h2 : (getSession s ((jsGet q "nonce").getD "")).isSome = true)
    (h3 : verifyHmac q cfg.CLIENT_SECRET = true)
    (h4 : eff.exchange = none) :
    callbackHandler cfg eff q s =
      ⟨Response.status 500 "Error exchanging authorization code for access token", s, none⟩ := by
  simp [callbackHandler, h1, h2, h3, h4]

/-- The callback handler when the webhook post rejects: the same 500 as an
exchange failure, store untouched. -/
theorem callback_persist_fail (cfg : Config) (q : Query) (s : Sessions) (td : TokenData)
    (h1 : truthy (jsGet q "nonce") = true)
    (h2 : (getSession s ((jsGet q "nonce").getD "")).isSome = true)
    (h3 : verifyHmac q cfg.CLIENT_SECRET = true) :
    (callbackHandler cfg ⟨some td, false⟩ q s).response
      = Response.status 500 "Error exchanging authorization code for access token"
    ∧ (callbackHandler cfg ⟨some td, false⟩ q s).sessionsAfter = s := by
  rcases hg : getSession s ((jsGet q "nonce").getD "") with _ | ctx
  · rw [hg] at h2; simp at h2
  · constructor <;> simp [callbackHandler, h1, h2, h3, hg]

/-! ## Claim C1 -/

/-- Claim C1 counterexample: the store holds token "t0"; a callback presents
it with a tampered signature; after the 400 the entry is still in the store,
and replaying the same callback is answered with the invalid-signature 400
again, not with the unknown-token rejection — so the first callback did not
consume the entry, the context is effectively restored, and the entry both
gets read twice and survives its callback, contrary to the claim. -/
theorem callback_sig_failure_entry_survives_cex :
    getSession s0 "t0" = some ctx0
    ∧ (callbackHandler cfg0 effNone qCbBad s0).sessionsAfter = s0
    ∧ (callbackHandler cfg0 effNone qCbBad s0).response
        = Response.status 400 "Invalid HMAC on callback request"
    ∧ (callbackHandler cfg0 effNone qCbBad
        ((callbackHandler cfg0 effNone qCbBad s0).sessionsAfter)).response
        ≠ Response.status 400 "Invalid or missing nonce" :=
  ⟨by decide, by decide, by decide, by decide⟩

/-- Claim C1 (amended): the callback deletes a session entry if and only if
the request carries a truthy token that is in the store, the signature
verifies, the exchange resolves and the webhook post succeeds; on every
failure path — including signature failure after the lookup — the store is
unchanged, so the entry survives and can be read by later callbacks. -/
theorem callback_session_deleted_iff_full_success
    (cfg : Config) (eff : CallbackEffects) (q : Query) (s : Sessions) :
    (callbackHandler cfg eff q s).sessionsAfter =
      if truthy (jsGet q "nonce") && (getSession s ((jsGet q "nonce").getD "")).isSome
         && verifyHmac q cfg.CLIENT_SECRET && eff.exchange.isSome && eff.persistOk
      then deleteSession s ((jsGet q "nonce").getD "")
      else s := by
  cases h1 : truthy (jsGet q "nonce") with
  | false =>
    rw [callback_unknown_token cfg eff q s (by rw [h1]; rfl)]
    simp [h1]
  | true =>
    cases h2 : (getSession s ((jsGet q "nonce").getD "")).isSome with
    | false =>
      rw [callback_unknown_token cfg eff q s (by rw [h1, h2]; rfl)]
      simp [h1, h2]
    | true =>
      cases h3 : verifyHmac q cfg.CLIENT_SECRET with
      | false =>
        rw [callback_bad_sig cfg eff q s h1 h2 h3]
        simp [h3]
      | true =>
        rcases heff : eff.exchange with _ | td
        · rw [callback_exchange_fail cfg eff q s h1 h2 h3 heff]
          simp [heff]
        · rcases hg : getSession s ((jsGet q "nonce").getD "") with _ | ctx
          · rw [hg] at h2; simp at h2
          · cases hp : eff.persistOk <;>
              simp [callbackHandler, h1, h2, h3, heff, hg, hp]

/-! ## Claim C2 -/

/-- Claim C2 counterexample: on a validly signed callback for stored token
"t0" whose exchange call rejects, the handler answers 500 and never reaches
the webhook call, but the token is still in the store afterwards — it was
not consumed, contrary to the claim; moreover a malformed (field-less) 2xx
exchange body is not treated as a failure at all: the handler proceeds,
invokes the webhook with undefined token fields, and answers 200. -/
theorem callback_exchange_failure_token_still_in_store_cex :
    (callbackHandler cfg0 effNone qCbOK s0).response
      = Response.status 500 "Error exchanging authorization code for access token"
    ∧ (callbackHandler cfg0 effNone qCbOK s0).persisted = none
    ∧ getSession (callbackHandler cfg0 effNone qCbOK s0).sessionsAfter "t0" = some ctx0
    ∧ (callbackHandler cfg0 ⟨some tdEmpty, true⟩ qCbOK s0).response
        = Response.ok "App successfully installed and data stored!"
    ∧ (callbackHandler cfg0 ⟨some tdEmpty, true⟩ qCbOK s0).persisted
        = some ⟨some "u1", some "acme", "t0", none, none, none⟩ :=
  ⟨by decide, by decide, by decide, by decide, by decide⟩

/-- Claim C2 (amended): for every callback whose token-exchange call rejects
(network error or non-2xx status — a malformed 2xx body is not a failure for
this code), the handler responds 500 and the persistence collaborator is
never invoked, but the correlation token is NOT consumed: the store is
returned unchanged, the entry still present. -/
theorem callback_exchange_failure_500_no_persist_token_kept
    (cfg : Config) (eff : CallbackEffects) (q : Query) (s : Sessions)
    (h1 : truthy (jsGet q "nonce") = true)
    (h2 : (getSession s ((jsGet q "nonce").getD "")).isSome = true)
    (h3 : verifyHmac q cfg.CLIENT_SECRET = true)
    (h4 : eff.exchange = none) :
    callbackHandler cfg eff q s =
      ⟨Response.status 500 "Error exchanging authorization code for access token", s, none⟩ :=
  callback_exchange_fail cfg eff q s h1 h2 h3 h4

/-- Claim C2 witness: the amended theorem applied at the concrete callback. -/
theorem callback_exchange_failure_500_no_persist_token_kept_witness :
    callbackHandler cfg0 effNone qCbOK s0 =
      ⟨Response.status 500 "Error exchanging authorization code for access token", s0, none⟩ :=
  callback_exchange_failure_500_no_persist_token_kept cfg0 effNone qCbOK s0
    (by decide) (by decide) (by decide) (by decide)

/-! ## Claim C3 -/

/-- Claim C3: when the correlation token is missing (or JS-falsy) or not in
the store, the callback answers the 400 unknown-token rejection with the
store unchanged and no webhook call; the outcome is the same for every
configuration (hence every secret) and every effects oracle, so the HMAC
signature is never consulted — the store lookup short-circuits before
signature verification. -/
theorem callback_unknown_token_short_circuits
    (cfg cfg2 : Config) (eff eff2 : CallbackEffects) (q : Query) (s : Sessions)
    (h : (truthy (jsGet q "nonce")
          && (getSession s ((jsGet q "nonce").getD "")).isSome) = false) :
    callbackHandler cfg eff q s = ⟨Response.status 400 "Invalid or missing nonce", s, none⟩
    ∧ callbackHandler cfg eff q s = callbackHandler cfg2 eff2 q s := by
  refine ⟨callback_unknown_token cfg eff q s h, ?_⟩
  rw [callback_unknown_token cfg eff q s h, callback_unknown_token cfg2 eff2 q s h]

/-- Claim C3 witness: a callback with no nonce parameter, against two
different secrets. -/
theorem callback_unknown_token_short_circuits_witness :
    callbackHandler cfg0 effNone [("domain", "acme"), ("hmac", "deadbeef")] s0
        = ⟨Response.status 400 "Invalid or missing nonce", s0, none⟩
    ∧ callbackHandler cfg0 effNone [("domain", "acme"), ("hmac", "deadbeef")] s0
        = callbackHandler cfg1 ⟨some td0, false⟩ [("domain", "acme"), ("hmac", "deadbeef")] s0 :=
  callback_unknown_token_short_circuits cfg0 cfg1 effNone ⟨some td0, false⟩
    [("domain", "acme"), ("hmac", "deadbeef")] s0 (by decide)

/-! ## Claim C4 -/

/-- Claim C4 counterexample: the secret "secret" followed by a NUL byte is a
different secret, yet a signature produced with "secret" verifies under it —
HMAC key normalization zero-pads sub-block-size keys, so distinct secrets do
not generally reject. -/
theorem verify_accepts_distinct_secret_cex :
    ("secret" ++ nulStr) ≠ "secret"
    ∧ verifyHmac [("domain", "acme"), ("hmac", signQ [("domain", "acme")] "secret")]
        ("secret" ++ nulStr) = true :=
  ⟨nul_append_ne "secret", by decide⟩

/-- Claim C4 (amended): signing and verifying with the same secret always
succeeds; but verification under a distinct secret fails exactly when the
digests differ — and they need not: for any secret S below the HMAC block
size, the distinct secret S ++ NUL yields the same digest and is accepted. -/
theorem verify_roundtrip_and_secret_sensitivity (P : Query) (S Sx : String)
    (hP : P.all (fun p => p.1 != "hmac") = true)
    (hS : (strBytes S).length ≤ 63)
    (hx : hmacHex Sx (canonMsg (removeHmac P)) ≠ hmacHex S (canonMsg (removeHmac P))) :
    verifyHmac (P ++ [("hmac", signQ P S)]) S = true
    ∧ ((S ++ nulStr) ≠ S ∧ verifyHmac (P ++ [("hmac", signQ P S)]) (S ++ nulStr) = true)
    ∧ verifyHmac (P ++ [("hmac", signQ P S)]) Sx = false :=
  ⟨verify_of_sign_self P S hP,
   ⟨nul_append_ne S, verify_of_sign_nul P S hP hS⟩,
   verify_of_sign_ne P S Sx hP hx⟩

/-- Claim C4 witness: the amended theorem at a concrete parameter set and
secrets. -/
theorem verify_roundtrip_and_secret_sensitivity_witness :
    verifyHmac ([("domain", "acme")] ++ [("hmac", signQ [("domain", "acme")] "secret")])
        "secret" = true
    ∧ (("secret" ++ nulStr) ≠ "secret"
       ∧ verifyHmac ([("domain", "acme")] ++ [("hmac", signQ [("domain", "acme")] "secret")])
           ("secret" ++ nulStr) = true)
    ∧ verifyHmac ([("domain", "acme")] ++ [("hmac", signQ [("domain", "acme")] "secret")])
        "other" = false :=
  verify_roundtrip_and_secret_sensitivity [("domain", "acme")] "secret" "other"
    (by decide) (by decide) (by decide)

/-! ## Claim C5 -/

/-- Claim C5: the verifier is a total pure function (by construction of the
embedding — it takes no store and can only return a Bool); in particular,
when the query carries no signature field at all it returns false rather
than failing: the computed hex digest is compared against undefined, and the
comparison is simply false. -/
theorem verify_missing_signature_returns_false (q : Query) (S : String)
    (h : jsGet q "hmac" = none) : verifyHmac q S = false := by
  simp [verifyHmac, h]

/-- Claim C5 witness. -/
theorem verify_missing_signature_returns_false_witness :
    jsGet ([("domain", "acme")] : Query) "hmac" = none
    ∧ verifyHmac [("domain", "acme")] "shh" = false :=
  ⟨by decide, verify_missing_signature_returns_false [("domain", "acme")] "shh" (by decide)⟩

/-! ## Claim C6 -/

/-- Claim C6: an install request failing signature verification gets the 400
invalid-signature response and the store is returned exactly as it was; the
outcome does not depend on the random bytes, so no correlation token enters
the system. -/
theorem install_invalid_sig_400_no_mutation (cfg : Config) (bs : List Nat) (q : Query)
    (s : Sessions) (h : verifyHmac q cfg.CLIENT_SECRET = false) :
    installHandler cfg bs q s = ⟨Response.status 400 "Invalid HMAC on install request", s⟩ := by
  simp [installHandler, h]

/-- Claim C6 witness: an unsigned install request against a non-empty store. -/
theorem install_invalid_sig_400_no_mutation_witness :
    installHandler cfg0 (List.range 16) [("domain", "acme")] s0
      = ⟨Response.status 400 "Invalid HMAC on install request", s0⟩ :=
  install_invalid_sig_400_no_mutation cfg0 (List.range 16) [("domain", "acme")] s0 (by decide)

/-! ## Claim C7 -/

/-- Claim C7: a validly signed install request is answered by directing the
client to the authorization URL built from the request domain and the
marketplace host, carrying the configured client id, the URL-encoded scopes
and redirect URI, and as state the fresh correlation token — which is the 32
lowercase-hex-character encoding of the 16 random bytes and is also the key
under which the context is stored. -/
theorem install_valid_sig_redirect_structure (cfg : Config) (bs : List Nat) (q : Query)
    (s : Sessions) (h : verifyHmac q cfg.CLIENT_SECRET = true)
    (hlen : bs.length = 16) (hb : ∀ b ∈ bs, b < 256) :
    installHandler cfg bs q s =
      ⟨Response.redirect ("https://" ++ jsStr (jsGet q "domain") ++ "." ++ cfg.BOKUN_HOST ++
          "/appstore/oauth/authorize?client_id=" ++ cfg.API_KEY ++
          "&scope=" ++ encodeURIComponent cfg.SCOPES ++
          "&redirect_uri=" ++ encodeURIComponent cfg.REDIRECT_URI ++
          "&state=" ++ bytesToHex bs),
       putSession s (bytesToHex bs) ⟨jsGet q "user", jsGet q "domain", jsGet q "timestamp"⟩⟩
    ∧ (bytesToHex bs).length = 32
    ∧ (∀ c ∈ (bytesToHex bs).data, isHexChar c = true) := by
  refine ⟨install_valid cfg bs q s h, ?_, bytesToHex_chars bs hb⟩
  rw [bytesToHex_length, hlen]

/-- Claim C7 witness: the concrete validly-signed install request with
domain acme. -/
theorem install_valid_sig_redirect_structure_witness :
    installHandler cfg0 (List.range 16) qInstallOK [] =
      ⟨Response.redirect ("https://" ++ jsStr (jsGet qInstallOK "domain") ++ "." ++ cfg0.BOKUN_HOST ++
          "/appstore/oauth/authorize?client_id=" ++ cfg0.API_KEY ++
          "&scope=" ++ encodeURIComponent cfg0.SCOPES ++
          "&redirect_uri=" ++ encodeURIComponent cfg0.REDIRECT_URI ++
          "&state=" ++ bytesToHex (List.range 16)),
       putSession [] (bytesToHex (List.range 16))
         ⟨jsGet qInstallOK "user", jsGet qInstallOK "domain", jsGet qInstallOK "timestamp"⟩⟩
    ∧ (bytesToHex (List.range 16)).length = 32
    ∧ (∀ c ∈ (bytesToHex (List.range 16)).data, isHexChar c = true) :=
  install_valid_sig_redirect_structure cfg0 (List.range 16) qInstallOK []
    (by decide) (by decide) (by decide)

/-! ## Claim C8 -/

/-- Claim C8 counterexample: on the same validly signed callback, an
exchange rejection and a webhook (persistence) rejection produce literally
equal responses — both the 500 with the exchange-failure message — so the
two failure paths are not distinguishable, contrary to the claim of distinct
messages. -/
theorem callback_failure_responses_identical_cex :
    (callbackHandler cfg0 effNone qCbOK s0).response
      = (callbackHandler cfg0 ⟨some td0, false⟩ qCbOK s0).response
    ∧ (callbackHandler cfg0 ⟨some td0, false⟩ qCbOK s0).response
      = Response.status 500 "Error exchanging authorization code for access token" :=
  ⟨by decide, by decide⟩

/-- Claim C8 (amended): both awaited calls share one catch block, so a
token-exchange failure and a persistence-forward failure yield the
identical response — status 500 with the exchange-failure message; they are
not distinguishable from each other (each still yields an explicit error
response — nothing is silently swallowed, and the two 400 rejections keep
their own distinct messages, as proved for claims C1 and C3). -/
theorem callback_exchange_and_persist_failures_same_response
    (cfg : Config) (q : Query) (s : Sessions) (td : TokenData) (b : Bool)
    (h1 : truthy (jsGet q "nonce") = true)
    (h2 : (getSession s ((jsGet q "nonce").getD "")).isSome = true)
    (h3 : verifyHmac q cfg.CLIENT_SECRET = true) :
    (callbackHandler cfg ⟨none, b⟩ q s).response
      = Response.status 500 "Error exchanging authorization code for access token"
    ∧ (callbackHandler cfg ⟨some td, false⟩ q s).response
      = Response.status 500 "Error exchanging authorization code for access token" := by
  constructor
  · rw [callback_exchange_fail cfg ⟨none, b⟩ q s h1 h2 h3 rfl]
  · exact (callback_persist_fail cfg q s td h1 h2 h3).1

/-- Claim C8 witness. -/
theorem callback_exchange_and_persist_failures_same_response_witness :
    (callbackHandler cfg0 ⟨none, true⟩ qCbOK s0).response
      = Response.status 500 "Error exchanging authorization code for access token"
    ∧ (callbackHandler cfg0 ⟨some td0, false⟩ qCbOK s0).response
      = Response.status 500 "Error exchanging authorization code for access token" :=
  callback_exchange_and_persist_failures_same_response cfg0 qCbOK s0 td0 true
    (by decide) (by decide) (by decide)

/-! ## Claim C9 -/

/-- Claim C9: the canonical signed message is ambiguous — the single
parameter a = "b&c=d" and the pair a = "b", c = "d" are different parameter
maps with the same joined message "a=b&c=d", so for every secret the
computed signature coincides and the verifier accepts one with a given
signature exactly when it accepts the other. -/
theorem canonical_message_ambiguous :
    ([("a", "b&c=d")] : Query) ≠ [("a", "b"), ("c", "d")]
    ∧ canonMsg [("a", "b&c=d")] = canonMsg [("a", "b"), ("c", "d")]
    ∧ ∀ (sig secret : String),
        verifyHmac [("a", "b&c=d"), ("hmac", sig)] secret
          = verifyHmac [("a", "b"), ("c", "d"), ("hmac", sig)] secret := by
  refine ⟨by decide, by decide, fun sig secret => ?_⟩
  rfl

/-! ## Claim C10 -/

/-- Claim C10: the install handler rejects exactly when signature
verification fails — it performs no presence check on domain, user or
timestamp: a validly signed request missing all three still stores a context
of absent fields under the fresh token and redirects to a URL whose host
interpolates the undefined domain as the literal text "undefined". -/
theorem install_checks_only_signature (cfg : Config) (bs : List Nat) (q : Query) (s : Sessions) :
    (((installHandler cfg bs q s).response
        = Response.status 400 "Invalid HMAC on install request")
      ↔ verifyHmac q cfg.CLIENT_SECRET = false)
    ∧ (jsGet q "domain" = none → jsGet q "user" = none → jsGet q "timestamp" = none →
       verifyHmac q cfg.CLIENT_SECRET = true →
       installHandler cfg bs q s =
         ⟨Response.redirect ("https://" ++ "undefined" ++ "." ++ cfg.BOKUN_HOST ++
             "/appstore/oauth/authorize?client_id=" ++ cfg.API_KEY ++
             "&scope=" ++ encodeURIComponent cfg.SCOPES ++
             "&redirect_uri=" ++ encodeURIComponent cfg.REDIRECT_URI ++
             "&state=" ++ bytesToHex bs),
          putSession s (bytesToHex bs) ⟨none, none, none⟩⟩) := by
  refine ⟨install_400_iff cfg bs q s, fun hd hu ht hv => ?_⟩
  rw [install_valid cfg bs q s hv, hd, hu, ht]
  rfl

/-- Claim C10 witness: a validly signed install request carrying nothing but
its signature. -/
theorem install_checks_only_signature_witness :
    (((installHandler cfg0 (List.range 16) qEmptyOK s0).response
        = Response.status 400 "Invalid HMAC on install request")
      ↔ verifyHmac qEmptyOK cfg0.CLIENT_SECRET = false)
    ∧ installHandler cfg0 (List.range 16) qEmptyOK s0 =
        ⟨Response.redirect ("https://" ++ "undefined" ++ "." ++ cfg0.BOKUN_HOST ++
            "/appstore/oauth/authorize?client_id=" ++ cfg0.API_KEY ++
            "&scope=" ++ encodeURIComponent cfg0.SCOPES ++
            "&redirect_uri=" ++ encodeURIComponent cfg0.REDIRECT_URI ++
            "&state=" ++ bytesToHex (List.range 16)),
         putSession s0 (bytesToHex (List.range 16)) ⟨none, none, none⟩⟩ :=
  ⟨(install_checks_only_signature cfg0 (List.range 16) qEmptyOK s0).1,
   (install_checks_only_signature cfg0 (List.range 16) qEmptyOK s0).2
     (by decide) (by decide) (by decide) (by decide)⟩

end OAuthApp
